import Mathlib

/-!
Verification of the task-management HTTP service in `src/app.py` (FastAPI +
MongoDB via motor/pymongo).  The service exposes CRUD handlers over one
`tasks` collection; pydantic models validate the bodies; `bson.ObjectId`
converts between the wire string id and the store key.

The embedding below models:
- `StatusEnum`, `TaskModel`, `UpdateTaskModel` and their pydantic validation;
- `bson.ObjectId` string parsing and rendering (24 lowercase hex characters);
- the collection as a list of documents in insertion order, keyed by a BSON
  `_id` value, with `insert_one`, `find_one`, `find_one_and_update`,
  `delete_one` mirroring the driver calls the handlers make;
- the five request handlers `create_task`, `list_tasks`, `show_task`,
  `update_task`, `delete_task` exactly as written, including the branch of
  `update_task` that queries `_id` with the raw string id.
-/

namespace TaskApi

/-- The status enumeration of `app.py` (`StatusEnum`): done, undone, progress. -/
inductive StatusEnum where
  | done
  | undone
  | progress
deriving DecidableEq

/-- pydantic coercion of a raw JSON string into `StatusEnum`; any other value
is a validation error (`none`). -/
def StatusEnum.ofString? : String → Option StatusEnum
  | "done" => some StatusEnum.done
  | "undone" => some StatusEnum.undone
  | "progress" => some StatusEnum.progress
  | _ => none

/-- The lowercase hex digit character used when rendering an `ObjectId`
(`str(ObjectId)` produces lowercase hex). -/
def hexChar (d : Nat) : Char :=
  Char.ofNat (if d < 10 then 48 + d else 87 + d)

/-- The value of one hex character, `none` when the character is not a hex
digit; models the per-character validity check `bson.ObjectId` applies to a
string argument (both cases accepted). -/
def hexVal? (c : Char) : Option Nat :=
  if 48 ≤ c.toNat ∧ c.toNat ≤ 57 then some (c.toNat - 48)
  else if 97 ≤ c.toNat ∧ c.toNat ≤ 102 then some (c.toNat - 87)
  else if 65 ≤ c.toNat ∧ c.toNat ≤ 70 then some (c.toNat - 55)
  else none

/-- Big-endian rendering of `n` on exactly `k` hex digits. -/
def toHexDigits : Nat → Nat → List Char
  | 0, _ => []
  | k + 1, n => toHexDigits k (n / 16) ++ [hexChar (n % 16)]

/-- Value of a list of hex characters, `none` at the first non-hex character. -/
def parseHexList (cs : List Char) : Option Nat :=
  cs.foldl (fun acc c => acc.bind fun a => (hexVal? c).map fun v => 16 * a + v) (some 0)

/-- An `ObjectId` value (12 bytes), modelled as a natural number below
`16 ^ 24`. -/
abbrev OId := Nat

/-- `str(ObjectId)`: the 24-character lowercase hex form. -/
def oidToHex (o : OId) : String :=
  String.mk (toHexDigits 24 o)

/-- `bson.ObjectId(s)` applied to a string: succeeds exactly on 24-character
hex strings, otherwise raises `bson.errors.InvalidId` (modelled as `none`). -/
def ObjectId? (s : String) : Option OId :=
  if s.length = 24 then parseHexList s.data else none

/-- A BSON value usable as the `_id` of a stored document.  Documents inserted
by `create_task` are keyed by a driver-generated `ObjectId`; the empty-body
branch of `update_task` queries `_id` with the raw Python string instead, and
in BSON an ObjectId value never equals a string value. -/
inductive BsonId where
  | oid (o : OId)
  | str (s : String)
deriving DecidableEq

/-- The content fields of a stored task document; its `_id` is kept alongside
as the collection key. -/
structure TaskDoc where
  title : String
  description : String
  priority : Int
  status : StatusEnum
deriving DecidableEq

/-- The `tasks` collection: documents in insertion order, keyed by `_id`. -/
abbrev Store := List (BsonId × TaskDoc)

/-- `task_collection.find_one({"_id": key})`: the first document whose `_id`
equals the key, `none` when nothing matches (the driver never throws for a
simply-missing record). -/
def find_one : Store → BsonId → Option (BsonId × TaskDoc)
  | [], _ => none
  | kv :: rest, key => if kv.1 = key then some kv else find_one rest key

/-- `task_collection.insert_one(doc)` with a driver-generated `_id`: appends
the document.  MongoDB guarantees the generated id is fresh; the theorems
below carry that freshness as a hypothesis. -/
def insert_one (s : Store) (newId : BsonId) (d : TaskDoc) : Store :=
  s ++ [(newId, d)]

/-- `TaskModel` of `app.py` after pydantic validation: `id` is an optional
string (`PyObjectId` with `BeforeValidator(str)`), `title` and `description`
strings, `priority` an int, `status` the enumeration. -/
structure TaskModel where
  id : Option String
  title : String
  description : String
  priority : Int
  status : StatusEnum
deriving DecidableEq

/-- `UpdateTaskModel` of `app.py`: every field optional, `None` by default. -/
structure UpdateTaskModel where
  id : Option String
  title : Option String
  description : Option String
  priority : Option Int
  status : Option StatusEnum
deriving DecidableEq

/-- A raw JSON body for the create endpoint: each field present (`some`) or
absent (`none`); `status` arrives as a raw string still to be checked against
the enumeration. -/
structure TaskPayload where
  id : Option String := none
  title : Option String := none
  description : Option String := none
  priority : Option Int := none
  status : Option String := none

/-- A raw JSON body for the update endpoint; an absent field and an explicit
null both leave the pydantic field at `None`, so both are `none` here. -/
structure UpdatePayload where
  id : Option String := none
  title : Option String := none
  description : Option String := none
  priority : Option Int := none
  status : Option String := none

/-- pydantic validation of a create body against `TaskModel` (`app.py` lines
34-52): `title` is required with `min_length = 3, max_length = 100`;
`description` defaults to `""` — pydantic does not re-validate a default — and
when supplied must have length in `[3, 500]`; `priority` defaults to `10`,
and the `min = 1, max = 10` keywords on its `Field` are not pydantic
constraint keywords (those are `ge`/`le`), so no bound is enforced; `status`
must be one of the three enumeration values. -/
def validateTaskModel (p : TaskPayload) : Option TaskModel :=
  match p.title with
  | none => none
  | some t =>
    if 3 ≤ t.length ∧ t.length ≤ 100 then
      match p.status with
      | none => none
      | some raw =>
        match StatusEnum.ofString? raw with
        | none => none
        | some st =>
          match p.description with
          | none =>
            some { id := p.id, title := t, description := "",
                   priority := p.priority.getD 10, status := st }
          | some d =>
            if 3 ≤ d.length ∧ d.length ≤ 500 then
              some { id := p.id, title := t, description := d,
                     priority := p.priority.getD 10, status := st }
            else none
    else none

/-- Length check of one optional string field of `UpdateTaskModel`: an absent
field passes, a present one must satisfy the bounds. -/
def checkLen (lo hi : Nat) : Option String → Bool
  | none => true
  | some s => decide (lo ≤ s.length ∧ s.length ≤ hi)

/-- pydantic validation of an update body against `UpdateTaskModel` (`app.py`
lines 53-71): every field optional; `title` and `description` lengths are
checked when the field is present; `priority` carries the same non-constraint
`min`/`max` keywords, so it is unconstrained; `status` is checked against the
enumeration when present. -/
def validateUpdateModel (p : UpdatePayload) : Option UpdateTaskModel :=
  if checkLen 3 100 p.title && checkLen 3 500 p.description then
    match p.status with
    | none =>
      some { id := p.id, title := p.title, description := p.description,
             priority := p.priority, status := none }
    | some raw =>
      match StatusEnum.ofString? raw with
      | none => none
      | some st =>
        some { id := p.id, title := p.title, description := p.description,
               priority := p.priority, status := some st }
  else none

/-- A value of the dictionary `model_dump` produces. -/
inductive DumpVal where
  | vStr (s : String)
  | vInt (n : Int)
  | vStatus (st : StatusEnum)
  | vNull
deriving DecidableEq

/-- `task.model_dump(by_alias=True, exclude=["id"])` in `create_task`: the four
content fields; the `id` field (alias `"_id"`) is excluded before insert. -/
def taskDump (t : TaskModel) : List (String × DumpVal) :=
  [("title", DumpVal.vStr t.title), ("description", DumpVal.vStr t.description),
   ("priority", DumpVal.vInt t.priority), ("status", DumpVal.vStatus t.status)]

/-- `task.model_dump(by_alias=True)` in `update_task`: all five fields in
declaration order, an absent field dumped as `None`. -/
def updateDump (u : UpdateTaskModel) : List (String × DumpVal) :=
  [("_id", match u.id with | some v => DumpVal.vStr v | none => DumpVal.vNull),
   ("title", match u.title with | some v => DumpVal.vStr v | none => DumpVal.vNull),
   ("description", match u.description with | some v => DumpVal.vStr v | none => DumpVal.vNull),
   ("priority", match u.priority with | some v => DumpVal.vInt v | none => DumpVal.vNull),
   ("status", match u.status with | some v => DumpVal.vStatus v | none => DumpVal.vNull)]

/-- The dictionary comprehension of `update_task` (line 142-144): keep the
entries whose value is not `None`. -/
def filteredUpdate (u : UpdateTaskModel) : List (String × DumpVal) :=
  (updateDump u).filter fun kv => decide (kv.2 ≠ DumpVal.vNull)

/-- Applying the `$set` of the non-null update fields to a document's content
fields: each present field overwrites, an absent field is untouched. -/
def applySet (d : TaskDoc) (u : UpdateTaskModel) : TaskDoc :=
  { title := u.title.getD d.title,
    description := u.description.getD d.description,
    priority := u.priority.getD d.priority,
    status := u.status.getD d.status }

/-- `task_collection.find_one_and_update({"_id": key}, {"$set": fields},
return_document=ReturnDocument.AFTER)`: updates the first matching document
and returns it post-update, `none` when nothing matches.  When the field set
holds an `"_id"` entry (the model's `id` is non-null) and a document matches,
MongoDB refuses to alter the immutable `_id` (the dumped value is a string,
never BSON-equal to the stored ObjectId) and the driver raises. -/
def find_one_and_update : Store → BsonId → UpdateTaskModel →
    Except String (Store × Option (BsonId × TaskDoc))
  | [], _, _ => Except.ok ([], none)
  | kv :: rest, key, u =>
    if kv.1 = key then
      if u.id.isSome then Except.error "immutable field _id"
      else Except.ok ((kv.1, applySet kv.2 u) :: rest, some (kv.1, applySet kv.2 u))
    else
      match find_one_and_update rest key u with
      | Except.ok (rest2, r) => Except.ok (kv :: rest2, r)
      | Except.error e => Except.error e

/-- `task_collection.delete_one({"_id": key})`: removes the first matching
document; the second component is `deleted_count`. -/
def delete_one : Store → BsonId → Store × Nat
  | [], _ => ([], 0)
  | kv :: rest, key =>
    if kv.1 = key then (rest, 1)
    else ((delete_one rest key).1.cons kv, (delete_one rest key).2)

/-- A task as serialized in a response (`response_model_by_alias=False`): the
`_id` rendered as a string plus the content fields. -/
structure TaskOut where
  id : String
  title : String
  description : String
  priority : Int
  status : StatusEnum
deriving DecidableEq

/-- Rendering a stored document for a response; an ObjectId key serializes to
its 24-character hex string (`PyObjectId` runs `BeforeValidator(str)`). -/
def serialize (kv : BsonId × TaskDoc) : TaskOut :=
  { id := match kv.1 with | BsonId.oid o => oidToHex o | BsonId.str s => s,
    title := kv.2.title, description := kv.2.description,
    priority := kv.2.priority, status := kv.2.status }

/-- The outcome of one request: a JSON response with a status code, the bare
204 response, an `HTTPException` raised by the handler, or an exception the
handler does not catch — the framework turns the latter into a 500 server
fault. -/
inductive HRes (α : Type) where
  | ok (code : Nat) (body : α)
  | noContent
  | httpError (code : Nat) (detail : String)
  | fault (msg : String)
deriving DecidableEq

/-- The document `create_task` inserts: the validated model's content fields
(`model_dump(by_alias=True, exclude=["id"])`). -/
def taskDoc (t : TaskModel) : TaskDoc :=
  { title := t.title, description := t.description,
    priority := t.priority, status := t.status }

/-- `create_task` of `app.py` (POST /tasks/, lines 86-98): inserts the
validated task's content fields under a driver-generated `ObjectId`
(`newOid`), re-reads the created document and returns it with 201.  The
`none` branch of the re-read cannot occur after a fresh insert; a `None`
there would fail response validation, modelled as a fault. -/
def create_task (s : Store) (task : TaskModel) (newOid : OId) : Store × HRes TaskOut :=
  match find_one (insert_one s (BsonId.oid newOid) (taskDoc task)) (BsonId.oid newOid) with
  | some kv => (insert_one s (BsonId.oid newOid) (taskDoc task), HRes.ok 201 (serialize kv))
  | none => (insert_one s (BsonId.oid newOid) (taskDoc task), HRes.fault "response validation failed")

/-- `list_tasks` of `app.py` (GET /tasks/, lines 106-110):
`find().to_list(1000)` — every document, capped at 1000. -/
def list_tasks (s : Store) : HRes (List TaskOut) :=
  HRes.ok 200 ((s.take 1000).map serialize)

/-- `show_task` of `app.py` (GET /tasks/{id}, lines 118-127): converts the
path id with `ObjectId(id)` — an uncaught `InvalidId` on a malformed string —
then looks the document up; 404 when absent. -/
def show_task (s : Store) (id : String) : HRes TaskOut :=
  match ObjectId? id with
  | none => HRes.fault "InvalidId"
  | some o =>
    match find_one s (BsonId.oid o) with
    | some kv => HRes.ok 200 (serialize kv)
    | none => HRes.httpError 404 ("Task " ++ id ++ " not found")

/-- `update_task` of `app.py` (PUT /tasks/{id}, lines 135-161): filters the
dumped body to its non-null fields; with at least one field it runs
`find_one_and_update` keyed by `ObjectId(id)` — an uncaught `InvalidId` on a
malformed string — answering 200 with the post-update document or 404; with
zero fields it falls back to `find_one({"_id": id})` with the RAW STRING id,
exactly as the source does, without the `ObjectId` conversion applied
everywhere else. -/
def update_task (s : Store) (id : String) (u : UpdateTaskModel) : Store × HRes TaskOut :=
  if 1 ≤ (filteredUpdate u).length then
    match ObjectId? id with
    | none => (s, HRes.fault "InvalidId")
    | some o =>
      match find_one_and_update s (BsonId.oid o) u with
      | Except.error e => (s, HRes.fault e)
      | Except.ok (s2, some kv) => (s2, HRes.ok 200 (serialize kv))
      | Except.ok (s2, none) => (s2, HRes.httpError 404 ("Task " ++ id ++ " not found"))
  else
    match find_one s (BsonId.str id) with
    | some kv => (s, HRes.ok 200 (serialize kv))
    | none => (s, HRes.httpError 404 ("Task " ++ id ++ " not found"))

/-- `delete_task` of `app.py` (DELETE /tasks/{id}, lines 164-173): converts
the id — an uncaught `InvalidId` on a malformed string — deletes, and answers
204 with no body when `deleted_count == 1`, else 404. -/
def delete_task (s : Store) (id : String) : Store × HRes TaskOut :=
  match ObjectId? id with
  | none => (s, HRes.fault "InvalidId")
  | some o =>
    if (delete_one s (BsonId.oid o)).2 = 1 then
      ((delete_one s (BsonId.oid o)).1, HRes.noContent)
    else
      ((delete_one s (BsonId.oid o)).1, HRes.httpError 404 ("Task " ++ id ++ " not found"))

/-- POST /tasks/ including FastAPI's body validation: a body pydantic rejects
answers 422 before the handler runs, leaving the store untouched. -/
def createEndpoint (s : Store) (p : TaskPayload) (newOid : OId) : Store × HRes TaskOut :=
  match validateTaskModel p with
  | none => (s, HRes.httpError 422 "validation error")
  | some t => create_task s t newOid

/-- PUT /tasks/{id} including FastAPI's body validation. -/
def updateEndpoint (s : Store) (id : String) (p : UpdatePayload) : Store × HRes TaskOut :=
  match validateUpdateModel p with
  | none => (s, HRes.httpError 422 "validation error")
  | some u => update_task s id u

/-- A sample stored document, used by the concrete witnesses. -/
def sampleDoc : TaskDoc :=
  { title := "Buy milk", description := "", priority := 10, status := StatusEnum.undone }

/-- A sample valid create body, used by the concrete witnesses. -/
def samplePayload : TaskPayload :=
  { title := some "Buy milk", status := some "undone" }

/-- The `TaskModel` pydantic builds from `samplePayload`. -/
def sampleTask : TaskModel :=
  { id := none, title := "Buy milk", description := "", priority := 10,
    status := StatusEnum.undone }

/-- The `UpdateTaskModel` of the body containing only priority 5. -/
def priorityOnlyUpdate : UpdateTaskModel :=
  { id := none, title := none, description := none, priority := some 5, status := none }

/-- The `UpdateTaskModel` of a body supplying only a non-null `"_id"`. -/
def idOnlyUpdate : UpdateTaskModel :=
  { id := some "abc", title := none, description := none, priority := none, status := none }

/-- Rendering a hex digit and reading it back is the identity below 16. -/
theorem hexVal_hexChar {d : Nat} (h : d < 16) : hexVal? (hexChar d) = some d := by
  interval_cases d <;> decide

/-- `toHexDigits k` always yields exactly `k` characters. -/
theorem toHexDigits_length (k : Nat) : ∀ n, (toHexDigits k n).length = k := by
  induction k with
  | zero => intro n; rfl
  | succ k ih => intro n; simp [toHexDigits, ih]

/-- Parsing the `k`-digit rendering of `n < 16 ^ k` recovers `n`. -/
theorem parseHexList_toHexDigits (k : Nat) :
    ∀ n, n < 16 ^ k → parseHexList (toHexDigits k n) = some n := by
  induction k with
  | zero =>
    intro n hn
    have h0 : n = 0 := by simpa using Nat.lt_one_iff.mp (by simpa using hn)
    subst h0; rfl
  | succ k ih =>
    intro n hn
    have hdiv : n / 16 < 16 ^ k := Nat.div_lt_of_lt_mul (by rw [← pow_succ']; exact hn)
    have hmod : n % 16 < 16 := Nat.mod_lt _ (by norm_num)
    have hrec := ih (n / 16) hdiv
    simp only [parseHexList] at hrec ⊢
    simp only [toHexDigits, List.foldl_append, List.foldl_cons, List.foldl_nil]
    rw [hrec]
    simp [hexVal_hexChar hmod]
    omega

/-- The rendered ObjectId string has 24 characters. -/
theorem oidToHex_length (o : OId) : (oidToHex o).length = 24 :=
  toHexDigits_length 24 o

/-- `ObjectId?` inverts `oidToHex` on every genuine ObjectId value. -/
theorem ObjectId?_oidToHex {o : OId} (h : o < 16 ^ 24) : ObjectId? (oidToHex o) = some o := by
  unfold ObjectId?
  rw [if_pos (oidToHex_length o)]
  exact parseHexList_toHexDigits 24 o h

/-- Looking a fresh key up after appending its document finds that document. -/
theorem find_one_insert_fresh {s : Store} {k : BsonId} (d : TaskDoc) :
    find_one s k = none → find_one (insert_one s k d) k = some (k, d) := by
  induction s with
  | nil => intro _; simp [insert_one, find_one]
  | cons a rest ih =>
    intro h
    simp only [find_one] at h
    by_cases hk : a.1 = k
    · rw [if_pos hk] at h; exact absurd h (by simp)
    · rw [if_neg hk] at h
      show find_one (a :: (rest ++ [(k, d)])) k = some (k, d)
      rw [find_one, if_neg hk]
      exact ih h

/-- A key absent from the key column is never found. -/
theorem find_one_none_of_not_mem {s : Store} {k : BsonId} :
    k ∉ s.map Prod.fst → find_one s k = none := by
  induction s with
  | nil => intro _; rfl
  | cons a rest ih =>
    intro h
    simp only [List.map_cons, List.mem_cons] at h
    push_neg at h
    rw [find_one, if_neg fun hk => h.1 hk.symm]
    exact ih h.2

/-- In a store whose every key is an ObjectId, a raw-string `_id` query
matches nothing: BSON never equates a string with an ObjectId. -/
theorem find_one_str_none {s : Store} (t : String)
    (hwf : ∀ kv ∈ s, ∃ m, kv.1 = BsonId.oid m) : find_one s (BsonId.str t) = none := by
  apply find_one_none_of_not_mem
  intro hmem
  obtain ⟨kv, hkv, hfst⟩ := List.mem_map.mp hmem
  obtain ⟨m, hm⟩ := hwf kv hkv
  rw [hm] at hfst
  exact BsonId.noConfusion hfst

/-- `find_one_and_update` on a matched key with a body whose `id` is null:
the first matching document is replaced by its `$set` image, which is also
returned (`ReturnDocument.AFTER`) and found by later lookups. -/
theorem find_one_and_update_found {s : Store} {k : BsonId} {d : TaskDoc}
    (u : UpdateTaskModel) (hid : u.id = none) :
    find_one s k = some (k, d) →
    ∃ s2, find_one_and_update s k u = Except.ok (s2, some (k, applySet d u)) ∧
      find_one s2 k = some (k, applySet d u) := by
  induction s with
  | nil => intro h; simp [find_one] at h
  | cons a rest ih =>
    intro h
    simp only [find_one] at h
    by_cases hk : a.1 = k
    · rw [if_pos hk] at h
      have ha : a = (k, d) := by injection h
      subst ha
      refine ⟨(k, applySet d u) :: rest, ?_, ?_⟩
      · rw [find_one_and_update, if_pos hk, hid]
        rfl
      · rw [find_one, if_pos rfl]
    · rw [if_neg hk] at h
      obtain ⟨s2, h1, h2⟩ := ih h
      refine ⟨a :: s2, ?_, ?_⟩
      · rw [find_one_and_update, if_neg hk, h1]
      · rw [find_one, if_neg hk]
        exact h2

/-- Deleting a key that is not present leaves the store as it was, with
`deleted_count = 0`. -/
theorem delete_one_not_found {s : Store} {k : BsonId} :
    find_one s k = none → delete_one s k = (s, 0) := by
  induction s with
  | nil => intro _; rfl
  | cons a rest ih =>
    intro h
    simp only [find_one] at h
    by_cases hk : a.1 = k
    · rw [if_pos hk] at h; exact absurd h (by simp)
    · rw [if_neg hk] at h
      rw [delete_one, if_neg hk, ih h]

/-- Deleting a present key removes exactly it (`deleted_count = 1`); with the
unique `_id` index MongoDB maintains, the key is gone afterwards. -/
theorem delete_one_found {s : Store} {k : BsonId} {kv : BsonId × TaskDoc}
    (hnd : (s.map Prod.fst).Nodup) (h : find_one s k = some kv) :
    ∃ s2, delete_one s k = (s2, 1) ∧ find_one s2 k = none := by
  induction s with
  | nil => simp [find_one] at h
  | cons a rest ih =>
    simp only [find_one] at h
    simp only [List.map_cons, List.nodup_cons] at hnd
    by_cases hk : a.1 = k
    · refine ⟨rest, ?_, ?_⟩
      · rw [delete_one, if_pos hk]
      · exact find_one_none_of_not_mem (hk ▸ hnd.1)
    · rw [if_neg hk] at h
      obtain ⟨s2, h1, h2⟩ := ih hnd.2 h
      refine ⟨a :: s2, ?_, ?_⟩
      · rw [delete_one, if_neg hk, h1]
      · rw [find_one, if_neg hk]
        exact h2

/-- `show_task` after a successful `ObjectId` conversion is the plain lookup. -/
theorem show_task_valid {s : Store} {id : String} {o : OId}
    (hid : ObjectId? id = some o) :
    show_task s id =
      match find_one s (BsonId.oid o) with
      | some kv => HRes.ok 200 (serialize kv)
      | none => HRes.httpError 404 ("Task " ++ id ++ " not found") := by
  rw [show_task, hid]

/-- `update_task` with a non-empty field set and a convertible id runs
`find_one_and_update` on the converted key. -/
theorem update_task_nonempty {s : Store} {id : String} {u : UpdateTaskModel} {o : OId}
    (hlen : 1 ≤ (filteredUpdate u).length) (hid : ObjectId? id = some o) :
    update_task s id u =
      match find_one_and_update s (BsonId.oid o) u with
      | Except.error e => (s, HRes.fault e)
      | Except.ok (s2, some kv) => (s2, HRes.ok 200 (serialize kv))
      | Except.ok (s2, none) => (s2, HRes.httpError 404 ("Task " ++ id ++ " not found")) := by
  rw [update_task, if_pos hlen, hid]

/-- `delete_task` with a convertible id reduces to `delete_one` on the
converted key. -/
theorem delete_task_valid {s : Store} {id : String} {o : OId}
    (hid : ObjectId? id = some o) :
    delete_task s id =
      if (delete_one s (BsonId.oid o)).2 = 1 then
        ((delete_one s (BsonId.oid o)).1, HRes.noContent)
      else
        ((delete_one s (BsonId.oid o)).1, HRes.httpError 404 ("Task " ++ id ++ " not found")) := by
  rw [delete_task, hid]

/-- C1: the empty-body branch of `update_task` queries `_id` with the raw
string id, which in BSON never equals an ObjectId key, so even when the id
does exist in the store the handler answers 404 — against the spec and the
handler's own comment, which promise 200 with the unchanged record. -/
theorem c1_empty_update_404_even_when_id_exists
    (s : Store) (o : OId)
    (hwf : ∀ kv ∈ s, ∃ m, kv.1 = BsonId.oid m)
    (_hex : find_one s (BsonId.oid o) ≠ none) :
    (updateEndpoint s (oidToHex o) {}).2 =
      HRes.httpError 404 ("Task " ++ oidToHex o ++ " not found") := by
  show (update_task s (oidToHex o)
    { id := none, title := none, description := none, priority := none, status := none }).2 = _
  rw [update_task, if_neg (by decide), find_one_str_none (oidToHex o) hwf]

/-- C1 witness: a one-document store; the document's id exists, yet PUT with
an empty body answers 404 for it. -/
theorem c1_witness :
    (∀ kv ∈ [(BsonId.oid 0, sampleDoc)], ∃ m, kv.1 = BsonId.oid m) ∧
    find_one [(BsonId.oid 0, sampleDoc)] (BsonId.oid 0) ≠ none ∧
    (updateEndpoint [(BsonId.oid 0, sampleDoc)] (oidToHex 0) {}).2 =
      HRes.httpError 404 ("Task " ++ oidToHex 0 ++ " not found") :=
  ⟨fun kv h => ⟨0, by simp at h; rw [h]⟩, by decide,
   c1_empty_update_404_even_when_id_exists [(BsonId.oid 0, sampleDoc)] 0
     (fun kv h => ⟨0, by simp at h; rw [h]⟩) (by decide)⟩

/-- C2: a syntactically invalid id reaches `ObjectId(id)` unguarded, so get,
update (with a non-empty body) and delete all surface the `InvalidId`
exception as an unhandled server fault instead of a 400-class client error. -/
theorem c2_invalid_id_unhandled_fault
    (s : Store) (id : String) (h : ObjectId? id = none)
    (u : UpdateTaskModel) (hu : 1 ≤ (filteredUpdate u).length) :
    show_task s id = HRes.fault "InvalidId" ∧
    (update_task s id u).2 = HRes.fault "InvalidId" ∧
    (delete_task s id).2 = HRes.fault "InvalidId" := by
  refine ⟨?_, ?_, ?_⟩
  · rw [show_task, h]
  · rw [update_task, if_pos hu, h]
  · rw [delete_task, h]

/-- C2 witness: the three handlers at the malformed id string `"xyz"` with a
body updating only the priority. -/
theorem c2_witness :
    ObjectId? "xyz" = none ∧
    1 ≤ (filteredUpdate priorityOnlyUpdate).length ∧
    (show_task [] "xyz" = HRes.fault "InvalidId" ∧
     (update_task [] "xyz" priorityOnlyUpdate).2 = HRes.fault "InvalidId" ∧
     (delete_task [] "xyz").2 = HRes.fault "InvalidId") :=
  ⟨by decide, by decide, c2_invalid_id_unhandled_fault [] "xyz" (by decide)
    priorityOnlyUpdate (by decide)⟩

/-- C9: the list handler returns `find().to_list(1000)`, hence at most 1000
records whatever the store holds. -/
theorem c9_list_at_most_1000 (s : Store) :
    ∃ l, list_tasks s = HRes.ok 200 l ∧ l.length ≤ 1000 := by
  refine ⟨(s.take 1000).map serialize, rfl, ?_⟩
  rw [List.length_map]
  exact List.length_take_le 1000 s

/-- C10: when the PUT body carries a non-null `_id`, the filtered field set
the handler sends to the store contains the `"_id"` key, whereas the dump
used by create excludes the id field for every task. -/
theorem c10_update_keeps_id_create_excludes
    (u : UpdateTaskModel) (v : String) (h : u.id = some v) :
    ("_id" ∈ (filteredUpdate u).map Prod.fst ∧
     ∀ t : TaskModel, "_id" ∉ (taskDump t).map Prod.fst) := by
  constructor
  · simp [filteredUpdate, updateDump, h]
  · intro t
    simp [taskDump]

/-- C10 witness: a body whose `_id` is the string `"abc"`; its field set
keeps `"_id"` while the create dump of the sample task has no `"_id"`. -/
theorem c10_witness :
    idOnlyUpdate.id = some "abc" ∧
    "_id" ∈ (filteredUpdate idOnlyUpdate).map Prod.fst ∧
    "_id" ∉ (taskDump sampleTask).map Prod.fst :=
  ⟨rfl,
   (c10_update_keeps_id_create_excludes idOnlyUpdate "abc" rfl).1,
   (c10_update_keeps_id_create_excludes idOnlyUpdate "abc" rfl).2 sampleTask⟩

/-- C3: the `min = 1, max = 10` keywords on `priority` enforce nothing, so a
create body with any priority whatsoever — 0 and 100 included — passes
validation, answers 201 with that priority, and the record is stored with it. -/
theorem c3_priority_bounds_not_enforced
    (s : Store) (pr : Int) (o : OId)
    (hfresh : find_one s (BsonId.oid o) = none) :
    (createEndpoint s { samplePayload with priority := some pr } o).2 =
      HRes.ok 201 { id := oidToHex o, title := "Buy milk", description := "",
                    priority := pr, status := StatusEnum.undone } ∧
    find_one (createEndpoint s { samplePayload with priority := some pr } o).1 (BsonId.oid o) =
      some (BsonId.oid o, { title := "Buy milk", description := "",
                            priority := pr, status := StatusEnum.undone }) := by
  have hv : validateTaskModel { samplePayload with priority := some pr } =
      some { sampleTask with priority := pr } := rfl
  have hins := find_one_insert_fresh (taskDoc { sampleTask with priority := pr }) hfresh
  have hce : createEndpoint s { samplePayload with priority := some pr } o =
      (insert_one s (BsonId.oid o) (taskDoc { sampleTask with priority := pr }),
       HRes.ok 201 (serialize (BsonId.oid o, taskDoc { sampleTask with priority := pr }))) := by
    simp only [createEndpoint, hv, create_task]
    rw [hins]
  rw [hce]
  exact ⟨rfl, hins⟩

/-- C3 witness: the empty store, priority 100, ObjectId 0. -/
theorem c3_witness :
    find_one [] (BsonId.oid 0) = none ∧
    ((createEndpoint [] { samplePayload with priority := some 100 } 0).2 =
      HRes.ok 201 { id := oidToHex 0, title := "Buy milk", description := "",
                    priority := 100, status := StatusEnum.undone } ∧
     find_one (createEndpoint [] { samplePayload with priority := some 100 } 0).1 (BsonId.oid 0) =
      some (BsonId.oid 0, { title := "Buy milk", description := "",
                            priority := 100, status := StatusEnum.undone })) :=
  ⟨rfl, c3_priority_bounds_not_enforced [] 100 0 rfl⟩

/-- C4: a create body that omits `description` is accepted — pydantic does not
validate the default `""` against `min_length = 3` — and the created record
has the empty description, while an explicit description of length 1 or 2
fails validation with 422 and leaves the store untouched. -/
theorem c4_description_default_bypasses_min_length
    (s : Store) (o : OId) (d : String)
    (hfresh : find_one s (BsonId.oid o) = none)
    (hd : d.length = 1 ∨ d.length = 2) :
    (createEndpoint s samplePayload o).2 =
      HRes.ok 201 { id := oidToHex o, title := "Buy milk", description := "",
                    priority := 10, status := StatusEnum.undone } ∧
    createEndpoint s { samplePayload with description := some d } o =
      (s, HRes.httpError 422 "validation error") := by
  constructor
  · have hv : validateTaskModel samplePayload = some sampleTask := rfl
    have hins := find_one_insert_fresh (taskDoc sampleTask) hfresh
    simp only [createEndpoint, hv, create_task]
    rw [hins]
    rfl
  · have hv : validateTaskModel { samplePayload with description := some d } = none := by
      show (if 3 ≤ ("Buy milk".length) ∧ ("Buy milk".length) ≤ 100 then _ else none) = none
      rw [if_pos (by decide)]
      show (if 3 ≤ d.length ∧ d.length ≤ 500 then _ else none) = none
      rw [if_neg (by omega)]
    rw [createEndpoint, hv]

/-- C4 witness: the empty store, ObjectId 0, explicit description `"ab"`. -/
theorem c4_witness :
    find_one [] (BsonId.oid 0) = none ∧
    ("ab".length = 1 ∨ "ab".length = 2) ∧
    ((createEndpoint [] samplePayload 0).2 =
      HRes.ok 201 { id := oidToHex 0, title := "Buy milk", description := "",
                    priority := 10, status := StatusEnum.undone } ∧
     createEndpoint [] { samplePayload with description := some "ab" } 0 =
      ([], HRes.httpError 422 "validation error")) :=
  ⟨rfl, by decide, c4_description_default_bypasses_min_length [] 0 "ab" rfl (by decide)⟩

/-- C5: every valid create body yields 201 with a record whose id is
non-empty, and getting that id returns the identical serialized record. -/
theorem c5_create_then_get_roundtrip
    (s : Store) (p : TaskPayload) (t : TaskModel) (o : OId)
    (hv : validateTaskModel p = some t)
    (ho : o < 16 ^ 24)
    (hfresh : find_one s (BsonId.oid o) = none) :
    ∃ s2 r, createEndpoint s p o = (s2, HRes.ok 201 r) ∧ r.id ≠ "" ∧
      show_task s2 r.id = HRes.ok 200 r := by
  have hins := find_one_insert_fresh (taskDoc t) hfresh
  refine ⟨insert_one s (BsonId.oid o) (taskDoc t),
          serialize (BsonId.oid o, taskDoc t), ?_, ?_, ?_⟩
  · simp only [createEndpoint, hv, create_task]
    rw [hins]
  · show oidToHex o ≠ ""
    intro hcontra
    have h24 := oidToHex_length o
    rw [hcontra] at h24
    simp at h24
  · show show_task _ (oidToHex o) = _
    rw [show_task_valid (ObjectId?_oidToHex ho), hins]

/-- C5 witness: the empty store, the sample body, ObjectId 0. -/
theorem c5_witness :
    validateTaskModel samplePayload = some sampleTask ∧
    (0 : OId) < 16 ^ 24 ∧
    find_one [] (BsonId.oid 0) = none ∧
    (∃ s2 r, createEndpoint [] samplePayload 0 = (s2, HRes.ok 201 r) ∧ r.id ≠ "" ∧
      show_task s2 r.id = HRes.ok 200 r) :=
  ⟨rfl, by norm_num, rfl,
   c5_create_then_get_roundtrip [] samplePayload sampleTask 0 rfl (by norm_num) rfl⟩

/-- C6: updating an existing record with the body containing only
priority 5 changes exactly `priority`: the response keeps the old title,
description, status and id, and the stored document agrees. -/
theorem c6_priority_update_frame
    (s : Store) (o : OId) (d : TaskDoc)
    (ho : o < 16 ^ 24)
    (hfind : find_one s (BsonId.oid o) = some (BsonId.oid o, d)) :
    ∃ s2,
      updateEndpoint s (oidToHex o) { priority := some 5 } =
        (s2, HRes.ok 200 { id := oidToHex o, title := d.title,
                           description := d.description, priority := 5,
                           status := d.status }) ∧
      find_one s2 (BsonId.oid o) =
        some (BsonId.oid o, { title := d.title, description := d.description,
                              priority := 5, status := d.status }) := by
  obtain ⟨s2, h1, h2⟩ := find_one_and_update_found priorityOnlyUpdate rfl hfind
  refine ⟨s2, ?_, h2⟩
  show update_task s (oidToHex o) priorityOnlyUpdate = _
  rw [update_task_nonempty (by decide) (ObjectId?_oidToHex ho), h1]
  rfl

/-- C6 witness: a one-document store holding the sample document at
ObjectId 0. -/
theorem c6_witness :
    (0 : OId) < 16 ^ 24 ∧
    find_one [(BsonId.oid 0, sampleDoc)] (BsonId.oid 0) = some (BsonId.oid 0, sampleDoc) ∧
    (∃ s2,
      updateEndpoint [(BsonId.oid 0, sampleDoc)] (oidToHex 0) { priority := some 5 } =
        (s2, HRes.ok 200 { id := oidToHex 0, title := sampleDoc.title,
                           description := sampleDoc.description, priority := 5,
                           status := sampleDoc.status }) ∧
      find_one s2 (BsonId.oid 0) =
        some (BsonId.oid 0, { title := sampleDoc.title,
                              description := sampleDoc.description,
                              priority := 5, status := sampleDoc.status })) :=
  ⟨by norm_num, rfl,
   c6_priority_update_frame [(BsonId.oid 0, sampleDoc)] 0 sampleDoc (by norm_num) rfl⟩

/-- C7: a create body whose title is shorter than 3 characters fails pydantic
validation, the endpoint answers 422, and the store is returned unchanged —
no document is inserted. -/
theorem c7_short_title_422_no_insert
    (s : Store) (p : TaskPayload) (ti : String) (o : OId)
    (ht : p.title = some ti) (hlen : ti.length < 3) :
    createEndpoint s p o = (s, HRes.httpError 422 "validation error") := by
  have hv : validateTaskModel p = none := by
    simp only [validateTaskModel, ht]
    rw [if_neg (by omega)]
  simp only [createEndpoint, hv]

/-- C7 witness: the empty store and the two-character title `"ab"`. -/
theorem c7_witness :
    ({ title := some "ab", status := some "undone" } : TaskPayload).title = some "ab" ∧
    "ab".length < 3 ∧
    createEndpoint [] { title := some "ab", status := some "undone" } 0 =
      ([], HRes.httpError 422 "validation error") :=
  ⟨rfl, by decide,
   c7_short_title_422_no_insert [] { title := some "ab", status := some "undone" }
     "ab" 0 rfl (by decide)⟩

/-- C8: deleting an existing id answers 204 with no body; repeating the same
delete answers 404 — the response is not idempotent. -/
theorem c8_delete_twice_204_then_404
    (s : Store) (o : OId) (d : TaskDoc)
    (ho : o < 16 ^ 24)
    (hnd : (s.map Prod.fst).Nodup)
    (hfind : find_one s (BsonId.oid o) = some (BsonId.oid o, d)) :
    ∃ s2, delete_task s (oidToHex o) = (s2, HRes.noContent) ∧
      (delete_task s2 (oidToHex o)).2 =
        HRes.httpError 404 ("Task " ++ oidToHex o ++ " not found") := by
  obtain ⟨s2, h1, h2⟩ := delete_one_found hnd hfind
  refine ⟨s2, ?_, ?_⟩
  · rw [delete_task_valid (ObjectId?_oidToHex ho), h1]
    rfl
  · rw [delete_task_valid (ObjectId?_oidToHex ho), delete_one_not_found h2]
    rfl

/-- C8 witness: a one-document store holding the sample document at
ObjectId 0. -/
theorem c8_witness :
    (0 : OId) < 16 ^ 24 ∧
    (([(BsonId.oid 0, sampleDoc)] : Store).map Prod.fst).Nodup ∧
    find_one [(BsonId.oid 0, sampleDoc)] (BsonId.oid 0) = some (BsonId.oid 0, sampleDoc) ∧
    (∃ s2, delete_task [(BsonId.oid 0, sampleDoc)] (oidToHex 0) = (s2, HRes.noContent) ∧
      (delete_task s2 (oidToHex 0)).2 =
        HRes.httpError 404 ("Task " ++ oidToHex 0 ++ " not found")) :=
  ⟨by norm_num, by simp, rfl,
   c8_delete_twice_204_then_404 [(BsonId.oid 0, sampleDoc)] 0 sampleDoc
     (by norm_num) (by simp) rfl⟩

end TaskApi
